/-
Verification of the VCTCareer onboarding flow against its specification.

Shallow embedding of the two interaction controllers:
- the milestone stepper of src/src/pages/landing/landing.jsx
  (wheel handling, throttling, clamping, journey-complete gating);
- the intake form of src/VCTCareerFrontend/src/components/landing/modal.jsx
  (field-dependency rules, submission lifecycle, confirmation/persistence).

State is React component state made explicit; DOM/network side effects are
recorded as explicit effect lists; timestamps are integers (Date.now()).
-/
import Mathlib

namespace Stepper

/-- The fixed milestone list (landing.jsx lines 3-10). -/
def milestones : List String :=
  ["Hit Radiant", "Amateur Team", "Open Qualifiers",
   "Challengers League (Tier 2)", "VCT Partner League (Tier 1)",
   "International Events (Masters/Champions)"]

/-- SCROLL_THROTTLE_MS (landing.jsx line 13). -/
def SCROLL_THROTTLE_MS : Int := 250

/-- A JavaScript number as far as the wheel handler inspects it: the handler
only evaluates `e.deltaY > 0`, so we keep finite values exactly and the three
non-finite values symbolically. -/
inductive JsNum where
  | fin (v : Int)
  | posInf
  | negInf
  | nan
  deriving DecidableEq, Repr

/-- JavaScript comparison `x > 0`: true for positive finite values and
+Infinity; false for 0, negatives, -Infinity, and NaN (all comparisons with
NaN are false). -/
def JsNum.gtZero : JsNum → Bool
  | .fin v => decide (0 < v)
  | .posInf => true
  | .negInf => false
  | .nan => false

/-- Stepper component state: activeIdx (useState 0, line 17) and the
lastScroll ref (useRef 0, line 19). -/
structure State where
  activeIdx : Nat
  lastScroll : Int
  deriving DecidableEq, Repr

/-- Initial state at mount: activeIdx = 0, lastScroll ref = 0. -/
def init : State := { activeIdx := 0, lastScroll := 0 }

/-- Observable side effects of one wheel event: whether
`window.scrollTo({top: 0, ...})` ran and whether `e.preventDefault()` ran
(the event was consumed). -/
structure Effects where
  scrolledToTop : Bool
  prevented : Bool
  deriving DecidableEq, Repr

/-- The wheel handler (landing.jsx lines 23-42). Within the throttle window
the handler returns immediately (line 26) - before scrollTo and
preventDefault. Otherwise it records the timestamp, resets the page scroll,
consumes the event, and steps the index: deltaY > 0 increments below the last
index, anything else decrements above 0. -/
def handleWheel (s : State) (deltaY : JsNum) (now : Int) : State × Effects :=
  if now - s.lastScroll < SCROLL_THROTTLE_MS then
    (s, { scrolledToTop := false, prevented := false })
  else
    let idx' :=
      if deltaY.gtZero then
        if s.activeIdx < milestones.length - 1 then s.activeIdx + 1 else s.activeIdx
      else
        if s.activeIdx > 0 then s.activeIdx - 1 else s.activeIdx
    ({ activeIdx := idx', lastScroll := now },
     { scrolledToTop := true, prevented := true })

/-- The journey-complete flag: `setCanStart(activeIdx === milestones.length - 1)`
(landing.jsx line 56); it gates the start action (disabled / pointer-events,
lines 177-219). -/
def canStart (s : State) : Bool := s.activeIdx == milestones.length - 1

/-- A wheel event as the handler sees it: deltaY and arrival time. -/
def WheelEvent : Type := JsNum × Int

/-- Run a sequence of wheel events from the mount state. -/
def run (evts : List WheelEvent) : State :=
  evts.foldl (fun s e => (handleWheel s e.1 e.2).1) init

end Stepper

namespace Modal

/-- Rank options, lowest to highest (modal.jsx lines 4-6). -/
def rankOptions : List String :=
  ["Iron", "Bronze", "Silver", "Gold", "Platinum", "Diamond", "Ascendant",
   "Immortal", "Radiant"]

/-- Experience options (modal.jsx lines 7-9). -/
def experienceOptions : List String := ["Tier 1", "Tier 2", "Tier 3", "None"]

/-- Division options (modal.jsx line 10). -/
def divisionOptions : List String := ["1", "2", "3"]

/-- JavaScript Array.prototype.indexOf on a string list: first index of the
element, or -1 when absent. -/
def jsIndexOf (l : List String) (x : String) : Int :=
  match l.findIdx? (· = x) with
  | some n => (n : Int)
  | none => -1

/-- Decimal parse of a non-empty all-digit string, none otherwise; agrees
with String.toNat? on the value space of the form's number input, written
with structural recursion over the character list. -/
def parseNat (v : String) : Option Nat :=
  if v.data.all Char.isDigit && !v.data.isEmpty then
    some (v.data.foldl (fun n c => n * 10 + (c.toNat - 48)) 0)
  else none

/-- JavaScript Number() restricted to the value space of the form's
number input, which is either empty or a decimal integer string:
Number("") is 0 and a digit string parses to its value; anything else is
NaN (modelled as none). -/
def jsNumber (v : String) : Option Int :=
  if v = "" then some 0 else (parseNat v).map Int.ofNat

/-- A successful gateway response body: the starting_tier label plus the
career_info payload, kept opaque as its serialized text. -/
structure ApiResult where
  starting_tier : String
  career_info : String
  deriving DecidableEq, Repr

/-- The modal component's state hooks (modal.jsx lines 13-22):
age, rank, division, experience (strings, as React holds them),
submitted, apiResult, loading, error, showToast. toastMsg is never set to a
meaningful value or read, so it is omitted. -/
structure FormState where
  age : String
  rank : String
  division : String
  experience : String
  submitted : Bool
  apiResult : Option ApiResult
  loading : Bool
  error : Option String
  showToast : Bool
  deriving DecidableEq, Repr

/-- Initial state when the modal opens: all fields empty, nothing submitted. -/
def initState : FormState :=
  { age := "", rank := "", division := "", experience := "",
    submitted := false, apiResult := none, loading := false,
    error := none, showToast := false }

/-- Whether the intake form is rendered. The modal body (lines 169-210) is a
ternary chain: success view when `submitted && apiResult && !showToast`, error
view when `submitted && !apiResult && !loading`, loading view when `loading`,
otherwise the form. -/
def formRendered (s : FormState) : Bool :=
  !(s.submitted && s.apiResult.isSome && !s.showToast) &&
  !(s.submitted && !s.apiResult.isSome && !s.loading) &&
  !s.loading

/-- Whether the error view is rendered (line 205): `submitted && !apiResult
&& !loading`. Only this branch displays the error message. -/
def errorViewShown (s : FormState) : Bool :=
  s.submitted && !s.apiResult.isSome && !s.loading

/-- Whether the confirmation toast is rendered (line 79):
`showToast && apiResult`. -/
def toastShown (s : FormState) : Bool := s.showToast && s.apiResult.isSome

/-- Whether the division select is rendered (line 276): `rank && rank !==
'Radiant'` - a rank is chosen and it is not the top tier. -/
def divisionShown (s : FormState) : Bool :=
  s.rank != "" && s.rank != "Radiant"

/-- Whether the experience select is disabled (line 310):
`rankOptions.indexOf(rank) < 7 && rank` - a rank is chosen and it is below
Immortal (index 7), the experience-eligibility threshold. -/
def experienceDisabled (s : FormState) : Bool :=
  decide (jsIndexOf rankOptions s.rank < 7) && s.rank != ""

/-- The value the experience select displays (line 307):
`rankOptions.indexOf(rank) < 7 && rank ? 'None' : experience`. -/
def displayedExperience (s : FormState) : String :=
  if experienceDisabled s then "None" else s.experience

/-- Age field edit (line 218), possible only while the form is rendered. -/
def editAge (s : FormState) (v : String) : FormState :=
  if formRendered s then { s with age := v } else s

/-- Rank select edit (line 239): `setRank(e.target.value); setDivision('')` -
changing the rank always clears the division. -/
def editRank (s : FormState) (v : String) : FormState :=
  if formRendered s then { s with rank := v, division := "" } else s

/-- Division select edit (line 281), possible only while the division select
is rendered, i.e. a non-top rank is chosen. -/
def editDivision (s : FormState) (v : String) : FormState :=
  if formRendered s && divisionShown s then { s with division := v } else s

/-- Experience select edit (line 308), a no-op while the select is disabled
(rank below the threshold). -/
def editExperience (s : FormState) (v : String) : FormState :=
  if formRendered s && !experienceDisabled s then { s with experience := v }
  else s

/-- The division field of the request: `rank === 'Radiant' ? null : division`
(line 50). -/
inductive DivisionField where
  | null
  | str (v : String)
  deriving DecidableEq, Repr

/-- The POST /createCareer request body (lines 46-51). `age` is
`Number(age)` (none = NaN); `past_experience` is the raw `experience` state
variable, not the value the disabled select displays. -/
structure RequestBody where
  age : Option Int
  current_rank : String
  past_experience : String
  division : DivisionField
  deriving DecidableEq, Repr

/-- Request body built from the current field state (lines 46-51). -/
def requestBody (s : FormState) : RequestBody :=
  { age := jsNumber s.age,
    current_rank := s.rank,
    past_experience := s.experience,
    division := if s.rank = "Radiant" then .null else .str s.division }

/-- Externally observable side effects of the modal: the gateway call, the
localStorage write, and the route navigation. -/
inductive Effect where
  | fetchCreateCareer (body : RequestBody)
  | storageSet (key : String) (value : ApiResult)
  | navigate (url : String)
  deriving DecidableEq, Repr

/-- HTML constraint validation of the age input (lines 213-232):
type=number, required, min 16, max 99. -/
def ageValid (s : FormState) : Bool :=
  match parseNat s.age with
  | some n => decide (16 ≤ n) && decide (n ≤ 99)
  | none => false

/-- The submit button's disabled attribute (line 344):
`rank && rank !== 'Radiant' && !division`. -/
def submitDisabled (s : FormState) : Bool :=
  s.rank != "" && s.rank != "Radiant" && s.division == ""

/-- HTML required/range constraint validation over the rendered controls:
age valid, rank selected, division selected when its select is rendered, and
the experience select (whose value is the displayed one) non-empty when
enabled; disabled controls are skipped by constraint validation. -/
def requiredOk (s : FormState) : Bool :=
  ageValid s && s.rank != "" &&
  (!divisionShown s || s.division != "") &&
  (experienceDisabled s || displayedExperience s != "")

/-- Whether a submit interaction can reach handleSubmit: the form must be
rendered (lines 169-210), the submit button not disabled (line 344), and
the browser's constraint validation must pass for the required fields. -/
def canSubmit (s : FormState) : Bool :=
  formRendered s && !submitDisabled s && requiredOk s

/-- The synchronous prefix of handleSubmit (lines 36-52): set loading, clear
error and apiResult, and issue the fetch with the current field values. -/
def handleSubmit (s : FormState) : FormState × List Effect :=
  ({ s with loading := true, error := none, apiResult := none },
   [.fetchCreateCareer (requestBody s)])

/-- A submit interaction on the rendered component: succeeds only past the
render/disabled/required guards, otherwise the event never reaches
handleSubmit and nothing happens. -/
def dispatchSubmit (s : FormState) : FormState × List Effect :=
  if canSubmit s then handleSubmit s else (s, [])

/-- Resolution of the awaited fetch: an ok response with a parsed body, a
non-ok status (`if (!res.ok) throw`), or a transport error (fetch rejected). -/
inductive GatewayResponse where
  | ok (data : ApiResult)
  | httpError
  | transportError
  deriving DecidableEq, Repr

/-- The continuation of handleSubmit after the fetch resolves (lines 53-62):
on success set apiResult, submitted and showToast; on any failure set the
error message; in both cases clear loading (finally). No storage write and
no navigation happens here. -/
def resolveSubmit (s : FormState) (r : GatewayResponse) : FormState × List Effect :=
  match r with
  | .ok data =>
    ({ s with apiResult := some data, submitted := true, showToast := true,
              loading := false }, [])
  | .httpError =>
    ({ s with error := some "Failed to create career. Please try again.",
              loading := false }, [])
  | .transportError =>
    ({ s with error := some "Failed to create career. Please try again.",
              loading := false }, [])

/-- The spec's submission status, read off the component state: Submitting
while loading, Succeeded once apiResult is populated, Failed once the error
message is set, otherwise Idle. -/
inductive SubmissionStatus where
  | Idle
  | Submitting
  | Succeeded
  | Failed
  deriving DecidableEq, Repr

/-- Map component state to the spec's submissionStatus. -/
def submissionStatus (s : FormState) : SubmissionStatus :=
  if s.loading then .Submitting
  else if s.apiResult.isSome then .Succeeded
  else if s.error.isSome then .Failed
  else .Idle

/-- handleToastConfirm (lines 26-34): when apiResult is present, write it to
localStorage under 'valorantCareer' and then navigate to /career; in every
case dismiss the toast. -/
def handleToastConfirm (s : FormState) : FormState × List Effect :=
  match s.apiResult with
  | some r =>
    ({ s with showToast := false },
     [.storageSet "valorantCareer" r, .navigate "/career"])
  | none => ({ s with showToast := false }, [])

end Modal

/-- Form state reached by the edit sequence: age 20, rank Immortal,
experience Tier 1, then rank lowered to Iron (below the experience
threshold), then division 1. The experience select now displays "None" and
is disabled, while the `experience` state variable still holds "Tier 1". -/
def staleExperienceState : Modal.FormState :=
  Modal.editDivision
    (Modal.editRank
      (Modal.editExperience
        (Modal.editRank (Modal.editAge Modal.initState "20") "Immortal")
        "Tier 1")
      "Iron")
    "1"

/-- A fully valid, submittable first-time form state: age 20, rank Radiant
(so no division is required), experience Tier 1. -/
def validRadiantState : Modal.FormState :=
  Modal.editExperience
    (Modal.editRank (Modal.editAge Modal.initState "20") "Radiant")
    "Tier 1"

/-- The state after submitting validRadiantState and the gateway call
failing with a transport error. -/
def failedFirstSubmitState : Modal.FormState :=
  (Modal.resolveSubmit (Modal.dispatchSubmit validRadiantState).1
    .transportError).1

section StepperLemmas

open Stepper

theorem handleWheel_idx_lt (s : State) (d : JsNum) (now : Int)
    (h : s.activeIdx < milestones.length) :
    (handleWheel s d now).1.activeIdx < milestones.length := by
  unfold handleWheel
  split
  · exact h
  · simp only
    split
    · split <;> simp [milestones] at * <;> omega
    · split <;> omega

theorem run_idx_lt (evts : List WheelEvent) :
    (run evts).activeIdx < milestones.length := by
  suffices h : ∀ (l : List WheelEvent) (s : State),
      s.activeIdx < milestones.length →
      (l.foldl (fun s e => (handleWheel s e.1 e.2).1) s).activeIdx < milestones.length by
    exact h evts init (by decide)
  intro l
  induction l with
  | nil => intro s hs; exact hs
  | cons e t ih =>
    intro s hs
    exact ih _ (handleWheel_idx_lt s e.1 e.2 hs)

end StepperLemmas

section ClaimTheorems

open Stepper Modal

/-- C1: while a submission is outstanding (the component is loading /
Submitting), a second submit interaction on the same form instance is a
synchronous no-op that issues no gateway request, so two submits in rapid
succession while the first is outstanding produce exactly one network
call. While loading, the render chain replaces the form with the loading
view, so the submit interaction cannot reach handleSubmit. -/
theorem submit_single_flight (s : Modal.FormState)
    (h : Modal.canSubmit s = true) :
    (Modal.dispatchSubmit s).2 =
      [.fetchCreateCareer (Modal.requestBody s)] ∧
    Modal.submissionStatus (Modal.dispatchSubmit s).1 = .Submitting ∧
    Modal.dispatchSubmit (Modal.dispatchSubmit s).1 =
      ((Modal.dispatchSubmit s).1, []) := by
  have h1 : Modal.dispatchSubmit s = Modal.handleSubmit s := by
    simp [Modal.dispatchSubmit, h]
  have hload : (Modal.handleSubmit s).1.loading = true := rfl
  have h2 : Modal.canSubmit (Modal.handleSubmit s).1 = false := by
    simp [Modal.canSubmit, Modal.formRendered, Modal.handleSubmit]
  refine ⟨by rw [h1]; rfl, by rw [h1]; rfl, ?_⟩
  rw [h1]
  simp [Modal.dispatchSubmit, h2]

/-- C1 witness: a concrete submittable state (age 20, rank Radiant,
experience Tier 1); the first submit issues the fetch and the second is a
no-op. -/
theorem submit_single_flight_witness :
    (Modal.dispatchSubmit
      (Modal.editExperience
        (Modal.editRank (Modal.editAge Modal.initState "20") "Radiant")
        "Tier 1")).2 =
      [.fetchCreateCareer (Modal.requestBody
        (Modal.editExperience
          (Modal.editRank (Modal.editAge Modal.initState "20") "Radiant")
          "Tier 1"))] ∧
    Modal.dispatchSubmit
      ((Modal.dispatchSubmit
        (Modal.editExperience
          (Modal.editRank (Modal.editAge Modal.initState "20") "Radiant")
          "Tier 1")).1) =
      ((Modal.dispatchSubmit
        (Modal.editExperience
          (Modal.editRank (Modal.editAge Modal.initState "20") "Radiant")
          "Tier 1")).1, []) :=
  ⟨(submit_single_flight _ (by decide)).1,
   (submit_single_flight _ (by decide)).2.2⟩

/-- C2: the claim says a submission from a below-threshold rank sends
"none" as the past-experience value. In the code the disabled select
displays "None" and edits are no-ops, but handleSubmit sends the raw
`experience` state variable: from the reachable state where "Tier 1" was
chosen at rank Immortal and the rank was then lowered to Iron, the request
body carries past_experience "Tier 1", not "None". -/
theorem stale_past_experience_submitted :
    Modal.displayedExperience staleExperienceState = "None" ∧
    Modal.experienceDisabled staleExperienceState = true ∧
    Modal.editExperience staleExperienceState "Tier 2" = staleExperienceState ∧
    Modal.canSubmit staleExperienceState = true ∧
    (Modal.dispatchSubmit staleExperienceState).2 =
      [.fetchCreateCareer
        { age := some 20, current_rank := "Iron",
          past_experience := "Tier 1", division := .str "1" }] := by
  decide

/-- C3 counterexample: the claim says a wheel event arriving inside the
throttle window is still consumed (scroll reset and preventDefault) exactly
as accepted events are. In the code the throttle check returns before
scrollTo and preventDefault: from the reachable state after an accepted
event at t = 1000, the event at t = 1100 leaves the state unchanged but is
NOT consumed, while the accepted event was. -/
theorem throttled_event_not_consumed :
    (Stepper.handleWheel Stepper.init (.fin 3) 1000).1 =
      ({ activeIdx := 1, lastScroll := 1000 } : Stepper.State) ∧
    (Stepper.handleWheel Stepper.init (.fin 3) 1000).2.prevented = true ∧
    (Stepper.handleWheel Stepper.init (.fin 3) 1000).2.scrolledToTop = true ∧
    (Stepper.handleWheel ⟨1, 1000⟩ (.fin 3) 1100).1 =
      ({ activeIdx := 1, lastScroll := 1000 } : Stepper.State) ∧
    (Stepper.handleWheel ⟨1, 1000⟩ (.fin 3) 1100).2.prevented = false ∧
    (Stepper.handleWheel ⟨1, 1000⟩ (.fin 3) 1100).2.scrolledToTop = false := by
  decide

/-- C3 amended: an event arriving strictly inside the throttle window is a
complete no-op - the stepper state (activeIdx and lastScroll) is unchanged
AND the event is not consumed: neither the scroll reset nor preventDefault
runs, unlike accepted events. -/
theorem throttled_event_full_noop (s : Stepper.State) (d : Stepper.JsNum)
    (now : Int) (h : now - s.lastScroll < Stepper.SCROLL_THROTTLE_MS) :
    Stepper.handleWheel s d now =
      (s, { scrolledToTop := false, prevented := false }) := by
  unfold Stepper.handleWheel
  rw [if_pos h]

/-- C3 amended witness: the throttled event at t = 1100 after an accepted
event at t = 1000. -/
theorem throttled_event_full_noop_witness :
    Stepper.handleWheel ⟨1, 1000⟩ (.fin 3) 1100 =
      (⟨1, 1000⟩, { scrolledToTop := false, prevented := false }) :=
  throttled_event_full_noop ⟨1, 1000⟩ (.fin 3) 1100 (by decide)

/-- C4 counterexample: the claim says a zero or non-finite delta leaves
activeIndex unchanged in every state. In the code `e.deltaY > 0` is false
for 0 and NaN, so both take the backward branch: from the reachable state
with activeIdx = 1, an accepted zero-delta (or NaN-delta) event moves the
index to 0. -/
theorem zero_delta_event_moves_index :
    (Stepper.handleWheel Stepper.init (.fin 3) 1000).1 =
      ({ activeIdx := 1, lastScroll := 1000 } : Stepper.State) ∧
    (Stepper.handleWheel ⟨1, 1000⟩ (.fin 0) 2000).1.activeIdx = 0 ∧
    (Stepper.handleWheel ⟨1, 1000⟩ .nan 2000).1.activeIdx = 0 := by
  decide

/-- C4 amended: zero and non-finite deltas are not surfaced as errors, but
they are not no-ops either: an accepted event with delta 0, NaN or
-Infinity takes the backward branch (decrement, clamped at 0), and
+Infinity takes the forward branch (increment, clamped at the last index);
the index is unchanged only at the corresponding boundary or inside the
throttle window. -/
theorem zero_or_nonfinite_delta_steps (s : Stepper.State) (now : Int)
    (h : Stepper.SCROLL_THROTTLE_MS ≤ now - s.lastScroll) :
    (Stepper.handleWheel s (.fin 0) now).1.activeIdx = s.activeIdx - 1 ∧
    (Stepper.handleWheel s .nan now).1.activeIdx = s.activeIdx - 1 ∧
    (Stepper.handleWheel s .negInf now).1.activeIdx = s.activeIdx - 1 ∧
    (s.activeIdx < Stepper.milestones.length - 1 →
      (Stepper.handleWheel s .posInf now).1.activeIdx = s.activeIdx + 1) := by
  have hn : ¬(now - s.lastScroll < Stepper.SCROLL_THROTTLE_MS) := by omega
  refine ⟨?_, ?_, ?_, fun hb => ?_⟩ <;>
    simp only [Stepper.handleWheel, if_neg hn, Stepper.JsNum.gtZero] <;>
    simp <;> omega

/-- C4 amended witness: at activeIdx = 1 an accepted zero-delta event
decrements to 0. -/
theorem zero_or_nonfinite_delta_steps_witness :
    (Stepper.handleWheel ⟨1, 1000⟩ (.fin 0) 2000).1.activeIdx = 1 - 1 :=
  (zero_or_nonfinite_delta_steps ⟨1, 1000⟩ 2000 (by decide)).1

/-- C5: from any form state with a selected non-top rank and an empty
division, a submit interaction is rejected locally (the submit button is
disabled and the required division select is empty): the state is unchanged
and no gateway request is issued. -/
theorem nontop_rank_empty_division_rejected (s : Modal.FormState)
    (h1 : s.rank ≠ "") (h2 : s.rank ≠ "Radiant") (h3 : s.division = "") :
    Modal.dispatchSubmit s = (s, []) := by
  have hd : Modal.submitDisabled s = true := by
    simp [Modal.submitDisabled, h1, h2, h3]
  have hc : Modal.canSubmit s = false := by
    simp [Modal.canSubmit, hd]
  simp [Modal.dispatchSubmit, hc]

/-- C5 witness: rank Iron with no division selected; submit is a no-op with
no network call. -/
theorem nontop_rank_empty_division_rejected_witness :
    Modal.dispatchSubmit
      (Modal.editRank (Modal.editAge Modal.initState "20") "Iron") =
      (Modal.editRank (Modal.editAge Modal.initState "20") "Iron", []) :=
  nontop_rank_empty_division_rejected _ (by decide) (by decide) (by decide)

/-- C6: the claim says every failing gateway response surfaces an error
message to the user. The code stores the message in the `error` state, but
the error view is rendered only when `submitted && !apiResult && !loading`,
and `submitted` is set only on success - so after a first submission fails
(transport error on a valid Radiant-rank form), the status is Failed, no
storage write or navigation happens, the form re-renders editable and a
retry proceeds, yet the error view is not shown. -/
theorem failed_submission_error_not_displayed :
    Modal.canSubmit validRadiantState = true ∧
    Modal.submissionStatus failedFirstSubmitState = .Failed ∧
    failedFirstSubmitState.error =
      some "Failed to create career. Please try again." ∧
    (Modal.resolveSubmit (Modal.dispatchSubmit validRadiantState).1
      .transportError).2 = [] ∧
    Modal.formRendered failedFirstSubmitState = true ∧
    (Modal.dispatchSubmit failedFirstSubmitState).2 =
      [.fetchCreateCareer (Modal.requestBody failedFirstSubmitState)] ∧
    Modal.errorViewShown failedFirstSubmitState = false := by
  decide

/-- C7: for every finite sequence of wheel events from the mount state,
activeIndex stays within the milestone bounds; an accepted forward event at
the last index leaves it at the last index, and an accepted backward event
at index 0 leaves it at 0. -/
theorem activeIdx_bounded_and_boundaries_idempotent
    (evts : List Stepper.WheelEvent) (d : Stepper.JsNum) (now : Int) :
    (Stepper.run evts).activeIdx < Stepper.milestones.length ∧
    (Stepper.SCROLL_THROTTLE_MS ≤ now - (Stepper.run evts).lastScroll →
      d.gtZero = true →
      (Stepper.run evts).activeIdx = Stepper.milestones.length - 1 →
      (Stepper.handleWheel (Stepper.run evts) d now).1.activeIdx =
        Stepper.milestones.length - 1) ∧
    (Stepper.SCROLL_THROTTLE_MS ≤ now - (Stepper.run evts).lastScroll →
      d.gtZero = false →
      (Stepper.run evts).activeIdx = 0 →
      (Stepper.handleWheel (Stepper.run evts) d now).1.activeIdx = 0) := by
  refine ⟨run_idx_lt evts, fun ht hd hi => ?_, fun ht hd hi => ?_⟩ <;>
    have hn : ¬(now - (Stepper.run evts).lastScroll <
        Stepper.SCROLL_THROTTLE_MS) := by omega
  · simp [Stepper.handleWheel, if_neg hn, hd, hi]
  · simp [Stepper.handleWheel, if_neg hn, hd, hi]

/-- C7 witness: five properly spaced forward events reach the last index
(5); a sixth accepted forward event leaves the index at 5, and the bound
holds. -/
theorem activeIdx_bounded_and_boundaries_idempotent_witness :
    (Stepper.run
      [(.fin 1, 300), (.fin 1, 600), (.fin 1, 900), (.fin 1, 1200),
       (.fin 1, 1500)]).activeIdx < Stepper.milestones.length ∧
    (Stepper.handleWheel
      (Stepper.run
        [(.fin 1, 300), (.fin 1, 600), (.fin 1, 900), (.fin 1, 1200),
         (.fin 1, 1500)]) (.fin 1) 2000).1.activeIdx =
      Stepper.milestones.length - 1 :=
  ⟨(activeIdx_bounded_and_boundaries_idempotent _ (.fin 1) 2000).1,
   (activeIdx_bounded_and_boundaries_idempotent _ (.fin 1) 2000).2.1
     (by decide) (by decide) (by decide)⟩

/-- C8: in every state reachable by a sequence of wheel events from the
mount state, the journey-complete flag that gates the start action is true
exactly when activeIndex is the last milestone index. -/
theorem journey_complete_iff_last_index (evts : List Stepper.WheelEvent) :
    Stepper.canStart (Stepper.run evts) = true ↔
    (Stepper.run evts).activeIdx = Stepper.milestones.length - 1 := by
  simp [Stepper.canStart]

/-- C9: when the user acknowledges a successful placement (apiResult
present), the full placement result is written to durable storage under the
fixed key 'valorantCareer' exactly once, the write precedes the navigation,
and navigation to /career is triggered exactly once. -/
theorem acknowledgment_writes_storage_then_navigates (s : Modal.FormState)
    (r : Modal.ApiResult) (h : s.apiResult = some r) :
    Modal.handleToastConfirm s =
      ({ s with showToast := false },
       [.storageSet "valorantCareer" r, .navigate "/career"]) := by
  simp [Modal.handleToastConfirm, h]

/-- C9 witness: a succeeded state with a concrete placement result. -/
theorem acknowledgment_writes_storage_then_navigates_witness :
    Modal.handleToastConfirm
      { Modal.initState with
          apiResult := some ⟨"Tier 3", "profile"⟩,
          submitted := true, showToast := true } =
      ({ Modal.initState with
          apiResult := some ⟨"Tier 3", "profile"⟩,
          submitted := true, showToast := false },
       [.storageSet "valorantCareer" ⟨"Tier 3", "profile"⟩,
        .navigate "/career"]) :=
  acknowledgment_writes_storage_then_navigates _ ⟨"Tier 3", "profile"⟩ rfl

/-- C10: if the acknowledgment handler runs with no placement result
present, it writes nothing to storage and triggers no navigation; its only
effect is dismissing the confirmation toast. -/
theorem acknowledgment_without_result_is_noop (s : Modal.FormState)
    (h : s.apiResult = none) :
    Modal.handleToastConfirm s = ({ s with showToast := false }, []) ∧
    Modal.toastShown (Modal.handleToastConfirm s).1 = false := by
  constructor
  · simp [Modal.handleToastConfirm, h]
  · simp [Modal.handleToastConfirm, h, Modal.toastShown]

/-- C10 witness: a state showing the toast flag with no result; the handler
only clears the toast. -/
theorem acknowledgment_without_result_is_noop_witness :
    Modal.handleToastConfirm { Modal.initState with showToast := true } =
      ({ Modal.initState with showToast := false }, []) :=
  (acknowledgment_without_result_is_noop
    { Modal.initState with showToast := true } rfl).1

end ClaimTheorems
